import Mathlib

/-
Verification of the inventory-ledger and external-sync core of the
weedhak420/weedhaksystem420 retail application.

The definitions below are a shallow embedding of the relevant source code:
  * `src/app/utils.py` — the Google-Sheets circuit breaker
    (`GOOGLE_SHEETS_STATUS`, `update_google_sheets_status`,
    `_execute_sheets_api_call`, `check_google_sheets_config`,
    `get_google_sheets_service`, `reset_google_sheets_integration`,
    `send_to_n8n_webhook`).
  * `src/app/routes.py` — the stock-mutating request handlers
    (`add_product`, `edit_product`, `add_order`, `delete_order`,
    `add_inventory`).

External effects (the Google API transport, HTTP responses, exceptions
raised by the client library) are passed in as explicit outcome values;
machine floats of the source are modelled as exact integers, which is
faithful for the stock/ledger arithmetic the claims are about.
-/

namespace Marbo9k

/-! ## Circuit-breaker state (utils.py, GOOGLE_SHEETS_STATUS) -/

/-- The process-wide `GOOGLE_SHEETS_STATUS` dict (utils.py lines 24-30).
`errorCount` is an `Int` because the Python field is a plain int.
`lastSuccess` abstracts the `datetime.now()` value as a supplied tick. -/
structure SheetsStatus where
  enabled : Bool
  lastError : Option String
  errorCount : Int
  lastSuccess : Option Nat
deriving Repr, DecidableEq

/-- Initial value of `GOOGLE_SHEETS_STATUS` at process start. -/
def initialSheetsStatus : SheetsStatus :=
  { enabled := true, lastError := none, errorCount := 0, lastSuccess := none }

/-- `update_google_sheets_status` (utils.py lines 215-240).  On success the
counter and last error are cleared, `last_success` is recorded and, as in
the source, the state is re-enabled when it was disabled (the source guard
`error_count == 0` is checked after the counter was just zeroed).  On
failure the counter is incremented, the message recorded, and the
integration disabled once the counter reaches 3. -/
def update_google_sheets_status (st : SheetsStatus) (success : Bool)
    (errorMessage : Option String) (now : Nat) : SheetsStatus :=
  if success then
    let st1 : SheetsStatus :=
      { st with lastSuccess := some now, errorCount := 0, lastError := none }
    if !st1.enabled && st1.errorCount == 0 then { st1 with enabled := true } else st1
  else
    let st1 : SheetsStatus :=
      { st with errorCount := st.errorCount + 1, lastError := errorMessage }
    if 3 ≤ st1.errorCount then { st1 with enabled := false } else st1

/-- `reset_google_sheets_integration` (utils.py lines 392-405). -/
def reset_google_sheets_integration : SheetsStatus :=
  { enabled := true, lastError := none, errorCount := 0, lastSuccess := none }

/-- The configuration facts consulted by `check_google_sheets_config`
(utils.py lines 186-213).  The Flask-context versus `config.py` fallback of
the source is collapsed: both paths yield the same (file, id) pair. -/
structure SheetsConfig where
  apiAvailable : Bool
  credentialsFile : Option String
  credentialsFileExists : Bool
  spreadsheetId : Option String
deriving Repr, DecidableEq

/-- Python truthiness of an optional string: `None` and the empty string
are falsy. -/
def strFalsy : Option String → Bool
  | none => true
  | some s => s == ""

/-- `check_google_sheets_config` (utils.py lines 186-213): returns the
(ok, message) pair exactly in the source order of checks. -/
def check_google_sheets_config (cfg : SheetsConfig) : Bool × String :=
  if !cfg.apiAvailable then
    (false, "Google Sheets API library not installed")
  else if strFalsy cfg.credentialsFile then
    (false, "GOOGLE_SHEETS_CREDENTIALS_FILE not configured")
  else if !cfg.credentialsFileExists then
    (false, "Credentials file not found: " ++ (cfg.credentialsFile.getD ""))
  else if strFalsy cfg.spreadsheetId then
    (false, "GOOGLE_SHEETS_SPREADSHEET_ID not configured")
  else
    (true, "Configuration OK")

/-- Outcome of `api_call.execute()` as seen by `_execute_sheets_api_call`:
a successful result, an `HttpError` with optional HTTP status, or any other
exception. -/
inductive ApiOutcome where
  | ok (result : String)
  | httpError (status : Option Nat) (errText : String)
  | exn (msg : String)
deriving Repr, DecidableEq

/-- Whether the transport outcome is a failure. -/
def ApiOutcome.isFailure : ApiOutcome → Bool
  | .ok _ => false
  | .httpError _ _ => true
  | .exn _ => true

def statusToString : Option Nat → String
  | none => "None"
  | some n => toString n

/-- The 403 message built in `_execute_sheets_api_call` (utils.py 280-285);
text abbreviated, the claims depend only on which message is stored. -/
def permissionDeniedMessage : String :=
  "Google Sheets permission denied (403 Forbidden). Please ensure the service account has Editor permissions for the Google Sheet."

/-- The 404 message (utils.py 303-306). -/
def notFoundMessage : String :=
  "Google Sheets API error: Spreadsheet or range not found (404 Not Found). Please check your SPREADSHEET_ID and RANGE configuration."

/-- The 400 message (utils.py 314-317). -/
def badRequestMessage (errText : String) : String :=
  "Google Sheets API error: Bad request (400). This usually means the sheet name or range format is incorrect. Error details: " ++ errText

/-- The generic HttpError message (utils.py 272). -/
def genericApiErrorMessage (opName errText : String) (status : Option Nat) : String :=
  "Google Sheets API error in " ++ opName ++ ": " ++ errText ++ " (Status: " ++ statusToString status ++ ")"

/-- The unexpected-exception message (utils.py 341). -/
def unexpectedErrorMessage (opName msg : String) : String :=
  "Unexpected error in Google Sheets API (" ++ opName ++ "): " ++ msg

/-- The error message `_execute_sheets_api_call` records for a failing
transport outcome (utils.py 270-347). -/
def sheetsFailureMessage (outcome : ApiOutcome) (opName : String) : String :=
  match outcome with
  | .ok _ => ""
  | .httpError status errText =>
    if status == some 403 then permissionDeniedMessage
    else if status == some 404 then notFoundMessage
    else if status == some 400 then badRequestMessage errText
    else genericApiErrorMessage opName errText status
  | .exn m => unexpectedErrorMessage opName m

/-- `_execute_sheets_api_call` (utils.py lines 242-347).  Returns the
optional API result, the updated status, and whether `execute()` was
reached (i.e. whether a network attempt was made). -/
def execute_sheets_api_call (st : SheetsStatus) (cfg : SheetsConfig)
    (outcome : ApiOutcome) (opName : String) (now : Nat) :
    Option String × SheetsStatus × Bool :=
  if !st.enabled then
    (none, st, false)
  else
    let c := check_google_sheets_config cfg
    if !c.1 then
      (none, update_google_sheets_status st false (some c.2) now, false)
    else
      match outcome with
      | .ok r => (some r, update_google_sheets_status st true none now, true)
      | .httpError status errText =>
        (none, update_google_sheets_status st false
          (some (sheetsFailureMessage (.httpError status errText) opName)) now, true)
      | .exn m =>
        (none, update_google_sheets_status st false
          (some (sheetsFailureMessage (.exn m) opName)) now, true)

/-- `get_google_sheets_service` (utils.py lines 349-386).  On a
configuration failure the source only logs and returns `None`: it does NOT
call `update_google_sheets_status`.  A failure while loading credentials or
building the client (the `except` block) does update the status. -/
def get_google_sheets_service (st : SheetsStatus) (cfg : SheetsConfig)
    (credLoad : Except String Unit) (now : Nat) : Option Unit × SheetsStatus :=
  let c := check_google_sheets_config cfg
  if !c.1 then
    (none, st)
  else
    match credLoad with
    | .ok _ => (some (), st)
    | .error e =>
      (none, update_google_sheets_status st false
        (some ("Error initializing Google Sheets service: " ++ e)) now)

/-! ## n8n webhook (utils.py, send_to_n8n_webhook) -/

/-- Outcome of `requests.post`: an HTTP response or a raised exception
(timeout, transport error, ...). -/
inductive WebhookOutcome where
  | response (statusCode : Nat) (text : String)
  | raised (msg : String)
deriving Repr, DecidableEq

/-- The fixed `timeout=10` passed to `requests.post` (utils.py 1045). -/
def n8nWebhookTimeout : Nat := 10

/-- `send_to_n8n_webhook` (utils.py lines 1023-1069).  The whole body is
wrapped in try/except, so the function always returns a Bool and never
propagates an exception.  Success is the literal comparison
`response.status_code == 200` of the source. -/
def send_to_n8n_webhook (webhookUrl : Option String) (outcome : WebhookOutcome) : Bool :=
  if strFalsy webhookUrl then false
  else
    match outcome with
    | .response code _ => code == 200
    | .raised _ => false

/-! ## Sync-state operation alphabet (for the C10 invariant) -/

/-- The three mutators of `GOOGLE_SHEETS_STATUS`: a success report, a
failure report (both via `update_google_sheets_status`), and the admin
reset (`reset_google_sheets_integration`). -/
inductive SheetsOp where
  | success (now : Nat)
  | failure (msg : Option String) (now : Nat)
  | adminReset
deriving Repr

def applySheetsOp (st : SheetsStatus) : SheetsOp → SheetsStatus
  | .success now => update_google_sheets_status st true none now
  | .failure m now => update_google_sheets_status st false m now
  | .adminReset => reset_google_sheets_integration

/-- The C10 invariant: the counter is non-negative, and the integration is
only ever disabled with at least 3 consecutive recorded errors. -/
def SheetsStatusInv (st : SheetsStatus) : Prop :=
  0 ≤ st.errorCount ∧ (st.enabled = false → 3 ≤ st.errorCount)

instance (st : SheetsStatus) : Decidable (SheetsStatusInv st) := by
  unfold SheetsStatusInv; infer_instance

/-! ## Relational data model (models.py)

Only the columns that the stock/ledger/order logic reads or writes are
modelled; the remaining columns (descriptions, image paths, dates, payment
fields, ...) do not influence any claim.  Floats (`price`) are modelled as
exact integers, which is faithful for the comparisons and sums involved. -/

/-- `Product` (models.py lines 21-38). -/
structure Product where
  id : Int
  name : String
  flavor : String
  price : Int
  stock : Int
deriving Repr, DecidableEq

/-- `InventoryEntry` (models.py lines 67-75): the signed ledger record. -/
structure InventoryEntry where
  product_id : Int
  quantity : Int
  notes : String
deriving Repr, DecidableEq

/-- `OrderItem` (models.py lines 59-65). -/
structure OrderItem where
  order_id : Int
  product_id : Int
  quantity : Int
  price : Int
deriving Repr, DecidableEq

/-- `Order` (models.py lines 40-57). -/
structure Order where
  id : Int
  customer_id : Int
  total_amount : Int
deriving Repr, DecidableEq

/-- The committed relational state: the four tables the claims range over. -/
structure DBState where
  products : List Product
  entries : List InventoryEntry
  orders : List Order
  orderItems : List OrderItem
deriving Repr, DecidableEq

/-- `Product.query.get(pid)`. -/
def findProduct (ps : List Product) (pid : Int) : Option Product :=
  ps.find? (fun p => p.id == pid)

/-- Writing a product's `stock` column. -/
def setStock (ps : List Product) (pid : Int) (newStock : Int) : List Product :=
  ps.map (fun p => if p.id == pid then { p with stock := newStock } else p)

/-- Autoincrement id assigned by `db.session.flush()` for a new order. -/
def nextOrderId (st : DBState) : Int :=
  st.orders.foldl (fun m o => max m o.id) 0 + 1

/-- Autoincrement id for a new product row. -/
def nextProductId (st : DBState) : Int :=
  st.products.foldl (fun m p => max m p.id) 0 + 1

/-- `add_product` POST handler core (routes.py lines 1100-1161): inserts the
product row with the form stock value and commits.  No `InventoryEntry` is
written. -/
def add_product (st : DBState) (name flavor : String) (price stock : Int) : DBState :=
  { st with products := st.products ++
      [{ id := nextProductId st, name := name, flavor := flavor,
         price := price, stock := stock }] }

/-- `edit_product` POST handler core (routes.py lines 1163-1225): overwrites
the product columns, including `stock`, and commits.  No `InventoryEntry`
is written. -/
def edit_product (st : DBState) (pid : Int) (name flavor : String)
    (price stock : Int) : DBState :=
  { st with products := st.products.map (fun p =>
      if p.id == pid then
        { p with name := name, flavor := flavor, price := price, stock := stock }
      else p) }

/-- `add_inventory` POST handler core (routes.py lines 1555-1588): rejects a
non-positive or unparseable quantity, otherwise records a positive ledger
entry and increments the stock, in one commit. -/
def add_inventory (st : DBState) (pid qty : Int) (remark : String) : DBState :=
  if qty ≤ 0 then st
  else
    match findProduct st.products pid with
    | none => st
    | some p =>
      { st with
        entries := st.entries ++ [{ product_id := pid, quantity := qty, notes := remark }],
        products := setStock st.products pid (p.stock + qty) }

/-- Behaviour of the post-commit (or, in `delete_order`, pre-commit)
external sync + webhook block: it either returns a success flag or raises
an exception.  In `add_order` the block is wrapped in try/except so both
are recovered; in `delete_order` a raised exception reaches the handler's
outer `except` clause. -/
inductive SyncBehavior where
  | returns (ok : Bool)
  | raises (msg : String)
deriving Repr, DecidableEq

/-- Result of the per-item loop of `add_order` (routes.py lines 1343-1403).
Each constructor carries the state that is committed at that point:
`db.session.rollback()` on an abort restores exactly the last committed
state, and `create_notification` — invoked for a low-stock product inside
the loop — calls `db.session.commit()`, committing everything pending. -/
inductive ItemsResult where
  | ok (pending committed : DBState) (total : Int)
  | productNotFound (committed : DBState)
  | insufficientStock (name flavor : String) (available : Int) (committed : DBState)
deriving Repr, DecidableEq

/-- The `for i in range(len(product_ids))` loop of `add_order` (routes.py
lines 1343-1403).  A line item is a pair of optional ints: `none` models a
blank field or a string `int()` fails on (both `continue` in the source), a
non-positive parsed quantity also continues.  A missing product or an
insufficient stock aborts with `db.session.rollback()`.  A successful item
appends the `OrderItem`, the negative `InventoryEntry`, decrements the
stock and, when the new stock is below the low-stock threshold, triggers
`create_notification`, whose `db.session.commit()` commits the pending
transaction mid-loop. -/
def processOrderItems (oid : Int) (threshold : Int) :
    DBState → DBState → Int → List (Option Int × Option Int) → ItemsResult
  | pending, committed, total, [] => .ok pending committed total
  | pending, committed, total, (pidOpt, qtyOpt) :: rest =>
    match pidOpt, qtyOpt with
    | some pid, some qty =>
      if qty ≤ 0 then processOrderItems oid threshold pending committed total rest
      else
        match findProduct pending.products pid with
        | none => .productNotFound committed
        | some product =>
          if product.stock < qty then
            .insufficientStock product.name product.flavor product.stock committed
          else
            let pending' : DBState :=
              { pending with
                orderItems := pending.orderItems ++
                  [{ order_id := oid, product_id := pid, quantity := qty,
                     price := product.price }],
                entries := pending.entries ++
                  [{ product_id := pid, quantity := -qty,
                     notes := "Order #" ++ toString oid }],
                products := setStock pending.products pid (product.stock - qty) }
            let committed' :=
              if product.stock - qty < threshold then pending' else committed
            processOrderItems oid threshold pending' committed'
              (total + product.price * qty) rest
    | _, _ => processOrderItems oid threshold pending committed total rest

/-- The caller-visible result of `add_order`. -/
inductive AddOrderResult where
  | created (oid : Int)
  | noCustomer
  | noItems
  | productNotFound
  | insufficientStock (name flavor : String) (available : Int)
  | invalidItems
deriving Repr, DecidableEq

/-- Writing `order.total_amount` before the final commit. -/
def setOrderTotal (os : List Order) (oid : Int) (total : Int) : List Order :=
  os.map (fun o => if o.id == oid then { o with total_amount := total } else o)

/-- `add_order` POST handler (routes.py lines 1306-1461).  Returns the
result, the committed database state after the handler finishes, and the
flash message category.  The order row is inserted and flushed before the
loop; every abort path runs `db.session.rollback()`, restoring the last
committed state; on success the total is written and committed, after which
the sheets/webhook block runs inside try/except and can only change the
flash message. -/
def add_order (st : DBState) (threshold : Int) (customerId : Option Int)
    (items : List (Option Int × Option Int)) (sync : SyncBehavior) :
    AddOrderResult × DBState × String :=
  match customerId with
  | none => (.noCustomer, st, "select a customer")
  | some cid =>
    if items.isEmpty then (.noItems, st, "select at least one item")
    else
      let oid := nextOrderId st
      let st0 : DBState :=
        { st with orders := st.orders ++ [{ id := oid, customer_id := cid, total_amount := 0 }] }
      match processOrderItems oid threshold st0 st 0 items with
      | .productNotFound committed => (.productNotFound, committed, "product not found")
      | .insufficientStock n f a committed =>
        (.insufficientStock n f a, committed, "insufficient stock")
      | .ok pending committed total =>
        if total == 0 then (.invalidItems, committed, "select valid items")
        else
          let final : DBState := { pending with orders := setOrderTotal pending.orders oid total }
          let msg :=
            match sync with
            | .returns true => "order created and sheets updated"
            | .returns false => "order created but sheets update failed"
            | .raises _ => "order created but external integration errored"
          (.created oid, final, msg)

/-- The restock loop of `delete_order` (routes.py lines 1475-1479): for each
item whose product still exists, increment the stock and append a positive
ledger entry. -/
def restockItems (oid : Int) : DBState → List OrderItem → DBState
  | st, [] => st
  | st, it :: rest =>
    match findProduct st.products it.product_id with
    | none => restockItems oid st rest
    | some p =>
      restockItems oid
        { st with
          products := setStock st.products it.product_id (p.stock + it.quantity),
          entries := st.entries ++
            [{ product_id := it.product_id, quantity := it.quantity,
               notes := "Order #" ++ toString oid ++ " deleted" }] }
        rest

/-- `delete_order` POST handler (routes.py lines 1470-1505).  The restock
loop runs first, then the sheets + webhook calls, and only after them
`db.session.delete(order)` and `db.session.commit()`.  A raised exception
anywhere in the try block — including one raised by the sync calls —
reaches the `except` clause, which rolls the whole transaction back, so
nothing is committed.  Returns the committed state and whether the deletion
was committed. -/
def delete_order (st : DBState) (oid : Int) (sync : SyncBehavior) : DBState × Bool :=
  match st.orders.find? (fun o => o.id == oid) with
  | none => (st, false)
  | some _ =>
    let items := st.orderItems.filter (fun it => it.order_id == oid)
    let st1 := restockItems oid st items
    match sync with
    | .raises _ => (st, false)
    | .returns _ =>
      ({ st1 with
          orders := st1.orders.filter (fun o => !(o.id == oid)),
          orderItems := st1.orderItems.filter (fun it => !(it.order_id == oid)) }, true)

/-! ## Ledger reconciliation invariant -/

/-- Sum of the ledger entries recorded for a product. -/
def ledgerSum : List InventoryEntry → Int → Int
  | [], _ => 0
  | e :: es, pid => (if e.product_id == pid then e.quantity else 0) + ledgerSum es pid

/-- The reconciliation invariant of the spec: for every product, the summed
ledger deltas equal the current stock. -/
def reconciled (st : DBState) : Prop :=
  ∀ p ∈ st.products, ledgerSum st.entries p.id = p.stock

instance (st : DBState) : Decidable (reconciled st) :=
  List.decidableBAll _ _

/-- Primary-key integrity: product ids are pairwise distinct. -/
def wellFormed (st : DBState) : Prop :=
  (st.products.map (fun p => p.id)).Nodup

instance (st : DBState) : Decidable (wellFormed st) := by
  unfold wellFormed; infer_instance

/-- Stock of a product as stored, if the product exists. -/
def stockOf (st : DBState) (pid : Int) : Option Int :=
  (findProduct st.products pid).map (fun p => p.stock)

/-- Total quantity an order's items hold for one product. -/
def itemsQty : List OrderItem → Int → Int
  | [], _ => 0
  | it :: its, pid => (if it.product_id == pid then it.quantity else 0) + itemsQty its pid

/-- Total quantity the raw line items of an `add_order` request would, after
validation and skipping, deduct from one product. -/
def reqQty : List (Option Int × Option Int) → Int → Int
  | [], _ => 0
  | (some pid0, some q) :: rest, pid =>
    (if q ≤ 0 then 0 else if pid0 == pid then q else 0) + reqQty rest pid
  | _ :: rest, pid => reqQty rest pid

/-- Conjunction of primary-key integrity and the reconciliation invariant. -/
def okState (st : DBState) : Prop := wellFormed st ∧ reconciled st

instance (st : DBState) : Decidable (okState st) := by
  unfold okState; infer_instance

/-- The invariant carried by every state an `ItemsResult` can expose
(pending and committed alike). -/
def resultStatesOk : ItemsResult → Prop
  | .ok p c _ => okState p ∧ okState c
  | .productNotFound c => okState c
  | .insufficientStock _ _ _ c => okState c

/-- Store with two products, used to exercise the mid-loop-commit path of
`add_order`: selling 5 Cola leaves stock 7, strictly below the default
low-stock threshold 10, so the in-loop notification commits. -/
def twoProductStore : DBState :=
  { products := [{ id := 1, name := "Cola", flavor := "Original", price := 50, stock := 12 },
                 { id := 2, name := "Soda", flavor := "Lemon", price := 50, stock := 3 }],
    entries := [{ product_id := 1, quantity := 12, notes := "initial stock" },
                { product_id := 2, quantity := 3, notes := "initial stock" }],
    orders := [], orderItems := [] }

/-- Store with ample stock, used to exercise the silent skipping of a
non-positive line-item quantity. -/
def ampleStore : DBState :=
  { products := [{ id := 1, name := "Cola", flavor := "Original", price := 50, stock := 10 },
                 { id := 2, name := "Soda", flavor := "Lemon", price := 50, stock := 10 }],
    entries := [{ product_id := 1, quantity := 10, notes := "initial stock" },
                { product_id := 2, quantity := 10, notes := "initial stock" }],
    orders := [], orderItems := [] }

/-- Store holding one committed order of 7 Cola, used for the
delete/re-create round trip and for the delete_order sync-ordering
counterexample. -/
def storeWithOrder : DBState :=
  { products := [{ id := 1, name := "Cola", flavor := "Original", price := 50, stock := 3 }],
    entries := [{ product_id := 1, quantity := 10, notes := "initial stock" },
                { product_id := 1, quantity := -7, notes := "Order #1" }],
    orders := [{ id := 1, customer_id := 1, total_amount := 350 }],
    orderItems := [{ order_id := 1, product_id := 1, quantity := 7, price := 50 }] }

/-- Reconciled one-product store, used by the C1 counterexample. -/
def reconciledStore : DBState :=
  { products := [{ id := 1, name := "Cola", flavor := "Original", price := 50, stock := 5 }],
    entries := [{ product_id := 1, quantity := 5, notes := "initial stock" }],
    orders := [], orderItems := [] }

/-- A fully valid configuration, used by witnesses. -/
def sampleGoodConfig : SheetsConfig :=
  { apiAvailable := true, credentialsFile := some "credentials.json",
    credentialsFileExists := true, spreadsheetId := some "sheet-id" }

/-- A configuration with no credentials file and no spreadsheet id, used by
the C6 counterexample. -/
def sampleBadConfig : SheetsConfig :=
  { apiAvailable := true, credentialsFile := none,
    credentialsFileExists := false, spreadsheetId := none }

/-- Status after one concrete failed call attempt from the initial state. -/
def breakerRun1 : SheetsStatus :=
  (execute_sheets_api_call initialSheetsStatus sampleGoodConfig
    (.exn "timeout a") "update_product" 1).2.1

/-- Status after a second consecutive failed call attempt. -/
def breakerRun2 : SheetsStatus :=
  (execute_sheets_api_call breakerRun1 sampleGoodConfig
    (.httpError (some 500) "server error") "add_product" 2).2.1

/-- Status after a third consecutive failed call attempt. -/
def breakerRun3 : SheetsStatus :=
  (execute_sheets_api_call breakerRun2 sampleGoodConfig
    (.exn "timeout c") "check_headers" 3).2.1

/-! ## Theorems -/

/-- Claim C3: after 3 consecutive failed sheets-API call attempts the
circuit breaker is disabled, the third failure's message is retained as
`last_error`, and any subsequent call through `_execute_sheets_api_call`
returns `None` without a network attempt and without touching the status
(in particular the error counter stays put). -/
theorem breaker_disables_after_three_failures
    (st st1 st2 st3 : SheetsStatus) (cfg cfg' : SheetsConfig)
    (o1 o2 o3 o' : ApiOutcome) (p1 p2 p3 p' : String) (n1 n2 n3 n' : Nat)
    (hen : st.enabled = true) (hcnt : st.errorCount = 0)
    (hcfg : (check_google_sheets_config cfg).1 = true)
    (h1 : o1.isFailure = true) (h2 : o2.isFailure = true) (h3 : o3.isFailure = true)
    (hst1 : st1 = (execute_sheets_api_call st cfg o1 p1 n1).2.1)
    (hst2 : st2 = (execute_sheets_api_call st1 cfg o2 p2 n2).2.1)
    (hst3 : st3 = (execute_sheets_api_call st2 cfg o3 p3 n3).2.1) :
    st3.enabled = false ∧
    st3.lastError = some (sheetsFailureMessage o3 p3) ∧
    execute_sheets_api_call st3 cfg' o' p' n' = (none, st3, false) := by
  obtain ⟨en, le, ec, ls⟩ := st
  simp only at hen hcnt
  subst hen hcnt
  have e1 : st1 = ⟨true, some (sheetsFailureMessage o1 p1), 1, ls⟩ := by
    cases o1 with
    | ok r => simp [ApiOutcome.isFailure] at h1
    | httpError s t =>
      simp [hst1, execute_sheets_api_call, hcfg, update_google_sheets_status]
    | exn m =>
      simp [hst1, execute_sheets_api_call, hcfg, update_google_sheets_status]
  have e2 : st2 = ⟨true, some (sheetsFailureMessage o2 p2), 2, ls⟩ := by
    cases o2 with
    | ok r => simp [ApiOutcome.isFailure] at h2
    | httpError s t =>
      simp [hst2, e1, execute_sheets_api_call, hcfg, update_google_sheets_status]
    | exn m =>
      simp [hst2, e1, execute_sheets_api_call, hcfg, update_google_sheets_status]
  have e3 : st3 = ⟨false, some (sheetsFailureMessage o3 p3), 3, ls⟩ := by
    cases o3 with
    | ok r => simp [ApiOutcome.isFailure] at h3
    | httpError s t =>
      simp [hst3, e2, execute_sheets_api_call, hcfg, update_google_sheets_status]
    | exn m =>
      simp [hst3, e2, execute_sheets_api_call, hcfg, update_google_sheets_status]
  refine ⟨by simp [e3], by simp [e3], ?_⟩
  simp [e3, execute_sheets_api_call]

/-- Witness for C3: three concrete transport failures from the initial
state disable the breaker and a fourth call is a no-op. -/
theorem breaker_disables_after_three_failures_witness :
    breakerRun3.enabled = false ∧
    breakerRun3.lastError = some (sheetsFailureMessage (.exn "timeout c") "check_headers") ∧
    execute_sheets_api_call breakerRun3 sampleGoodConfig (.ok "row appended") "add_product" 4
      = (none, breakerRun3, false) :=
  breaker_disables_after_three_failures initialSheetsStatus breakerRun1 breakerRun2
    breakerRun3 sampleGoodConfig sampleGoodConfig
    (.exn "timeout a") (.httpError (some 500) "server error") (.exn "timeout c")
    (.ok "row appended") "update_product" "add_product" "check_headers" "add_product"
    1 2 3 4 rfl rfl rfl rfl rfl rfl rfl rfl rfl

/-- Claim C5: a successful sheets-API call through the wrapper returns the
result, resets the consecutive-error counter to 0 and records
`last_success` (for any prior counter value, in particular 1 or 2). -/
theorem sheets_success_resets_counter (st : SheetsStatus) (cfg : SheetsConfig)
    (r opName : String) (now : Nat) (hen : st.enabled = true)
    (hcfg : (check_google_sheets_config cfg).1 = true) :
    (execute_sheets_api_call st cfg (.ok r) opName now).1 = some r ∧
    (execute_sheets_api_call st cfg (.ok r) opName now).2.1.errorCount = 0 ∧
    (execute_sheets_api_call st cfg (.ok r) opName now).2.1.lastSuccess = some now := by
  simp [execute_sheets_api_call, hen, hcfg, update_google_sheets_status]

/-- Witness for C5: a success after two consecutive failures resets the
counter and stores the success tick. -/
theorem sheets_success_resets_counter_witness :
    (execute_sheets_api_call ⟨true, some "timeout b", 2, none⟩ sampleGoodConfig
        (.ok "ok") "add_product" 7).1 = some "ok" ∧
    (execute_sheets_api_call ⟨true, some "timeout b", 2, none⟩ sampleGoodConfig
        (.ok "ok") "add_product" 7).2.1.errorCount = 0 ∧
    (execute_sheets_api_call ⟨true, some "timeout b", 2, none⟩ sampleGoodConfig
        (.ok "ok") "add_product" 7).2.1.lastSuccess = some 7 :=
  sheets_success_resets_counter ⟨true, some "timeout b", 2, none⟩ sampleGoodConfig
    "ok" "add_product" 7 rfl rfl

/-- Counterexample to C6 as stated: with the breaker enabled and a broken
configuration, the sync-call entry point `get_google_sheets_service`
returns `None` while leaving the breaker status untouched — the
configuration failure is NOT counted as a failed attempt (the error counter
stays 0 and no `last_error` is recorded). -/
theorem service_config_failure_not_counted :
    (check_google_sheets_config sampleBadConfig).1 = false ∧
    initialSheetsStatus.enabled = true ∧
    get_google_sheets_service initialSheetsStatus sampleBadConfig (.ok ()) 0
      = (none, initialSheetsStatus) ∧
    (get_google_sheets_service initialSheetsStatus sampleBadConfig (.ok ()) 0).2.errorCount
      = 0 := by
  refine ⟨rfl, rfl, ?_, rfl⟩
  rfl

/-- Claim C6 amended: while the breaker is enabled, a call attempt through
`_execute_sheets_api_call` validates configuration before any network
attempt (the attempt flag is false) and a configuration failure there does
count against the breaker (counter incremented, message recorded); but a
configuration failure detected in `get_google_sheets_service` — the first
gate of every high-level sync operation — returns `None` without updating
the breaker status at all. -/
theorem config_failure_accounting (st : SheetsStatus) (cfg : SheetsConfig)
    (o : ApiOutcome) (opName : String) (n now' : Nat) (credLoad : Except String Unit)
    (hen : st.enabled = true)
    (hcfg : (check_google_sheets_config cfg).1 = false) :
    execute_sheets_api_call st cfg o opName n
      = (none,
         update_google_sheets_status st false (some (check_google_sheets_config cfg).2) n,
         false) ∧
    (execute_sheets_api_call st cfg o opName n).2.1.errorCount = st.errorCount + 1 ∧
    (execute_sheets_api_call st cfg o opName n).2.1.lastError
      = some (check_google_sheets_config cfg).2 ∧
    get_google_sheets_service st cfg credLoad now' = (none, st) := by
  refine ⟨?_, ?_, ?_, ?_⟩
  · simp [execute_sheets_api_call, hen, hcfg]
  · simp only [execute_sheets_api_call, hen, hcfg, update_google_sheets_status]
    simp only [Bool.not_true, Bool.false_eq_true, if_false, Bool.not_false, if_true]
    split <;> simp
  · simp only [execute_sheets_api_call, hen, hcfg, update_google_sheets_status]
    simp only [Bool.not_true, Bool.false_eq_true, if_false, Bool.not_false, if_true]
    split <;> simp
  · simp [get_google_sheets_service, hcfg]

/-- Witness for C6 (amended): a concrete wrapper call with a broken
configuration increments the counter to 1 and records the configuration
message, while the service constructor leaves the status unchanged. -/
theorem config_failure_accounting_witness :
    execute_sheets_api_call initialSheetsStatus sampleBadConfig (.ok "r") "add_product" 5
      = (none,
         update_google_sheets_status initialSheetsStatus false
           (some (check_google_sheets_config sampleBadConfig).2) 5,
         false) ∧
    (execute_sheets_api_call initialSheetsStatus sampleBadConfig (.ok "r")
        "add_product" 5).2.1.errorCount = initialSheetsStatus.errorCount + 1 ∧
    (execute_sheets_api_call initialSheetsStatus sampleBadConfig (.ok "r")
        "add_product" 5).2.1.lastError
      = some (check_google_sheets_config sampleBadConfig).2 ∧
    get_google_sheets_service initialSheetsStatus sampleBadConfig (.error "boom") 6
      = (none, initialSheetsStatus) :=
  config_failure_accounting initialSheetsStatus sampleBadConfig (.ok "r")
    "add_product" 5 6 (.error "boom") rfl rfl

/-- Counterexample to C8 as stated: a 201 response is in the 200 class, yet
`send_to_n8n_webhook` reports failure — success is the literal comparison
with 200, not 2xx membership. -/
theorem webhook_201_reported_as_failure :
    send_to_n8n_webhook (some "https://n8n.example/hook") (.response 201 "Created")
      = false ∧
    200 ≤ 201 ∧ 201 < 300 := by
  exact ⟨rfl, by decide, by decide⟩

/-- Claim C8 amended: the webhook notification reports success exactly when
a URL is configured (non-empty) and the HTTP response status is literally
200; every other outcome — non-200 status (including other 2xx codes),
raised exception/timeout, missing URL — yields `false`, and the function
is total, so no outcome is raised to the caller.  The request uses the
fixed `timeout=10`. -/
theorem webhook_success_iff (url : Option String) (o : WebhookOutcome) :
    (send_to_n8n_webhook url o = true ↔
      (strFalsy url = false ∧ ∃ t, o = .response 200 t)) ∧
    n8nWebhookTimeout = 10 := by
  refine ⟨?_, rfl⟩
  cases o with
  | response code t =>
    cases h : strFalsy url <;> simp [send_to_n8n_webhook, h]
  | raised m =>
    cases h : strFalsy url <;> simp [send_to_n8n_webhook, h]

/-- Claim C10: the sync-status invariant — non-negative error counter, and
`enabled = false` only with at least 3 consecutive errors — holds initially
and is preserved by every mutator of `GOOGLE_SHEETS_STATUS` (success
update, failure update, admin reset). -/
theorem sheets_status_invariant_preserved :
    SheetsStatusInv initialSheetsStatus ∧
    ∀ (st : SheetsStatus) (op : SheetsOp),
      SheetsStatusInv st → SheetsStatusInv (applySheetsOp st op) := by
  constructor
  · exact ⟨le_refl 0, by simp [initialSheetsStatus]⟩
  · rintro st op ⟨h1, h2⟩
    cases op with
    | success now =>
      simp [applySheetsOp, update_google_sheets_status, SheetsStatusInv]
      split_ifs <;> simp_all
    | failure m now =>
      simp only [applySheetsOp, update_google_sheets_status, SheetsStatusInv]
      rw [if_neg (by simp)]
      split_ifs with h3
      · refine ⟨?_, fun _ => ?_⟩
        · show (0 : Int) ≤ st.errorCount + 1
          omega
        · show (3 : Int) ≤ st.errorCount + 1
          exact h3
      · refine ⟨?_, fun hf => ?_⟩
        · show (0 : Int) ≤ st.errorCount + 1
          omega
        · have h4 : st.enabled = false := hf
          have h5 := h2 h4
          show (3 : Int) ≤ st.errorCount + 1
          omega
    | adminReset =>
      exact ⟨le_refl 0, by simp [applySheetsOp, reset_google_sheets_integration]⟩

/-- Witness for C10: the invariant, transported by the theorem across a
concrete failure update applied to the initial state. -/
theorem sheets_status_invariant_witness :
    SheetsStatusInv (applySheetsOp initialSheetsStatus (.failure (some "timeout") 0)) :=
  sheets_status_invariant_preserved.2 initialSheetsStatus (.failure (some "timeout") 0)
    sheets_status_invariant_preserved.1

/-! ### Helper lemmas on the relational state -/

theorem setStock_id (p : Product) (tgt v : Int) :
    (if p.id == tgt then { p with stock := v } else p).id = p.id := by
  split <;> rfl

theorem findProduct_setStock (ps : List Product) (tgt v pid : Int) :
    findProduct (setStock ps tgt v) pid
      = (findProduct ps pid).map
          (fun p => if p.id == tgt then { p with stock := v } else p) := by
  unfold findProduct setStock
  rw [List.find?_map]
  have hfun : ((fun x : Product => x.id == pid) ∘
      (fun p => if p.id == tgt then { p with stock := v } else p))
      = (fun p : Product => p.id == pid) := by
    funext p
    simp only [Function.comp]
    split <;> rfl
  rw [hfun]

theorem setStock_map_ids (ps : List Product) (tgt v : Int) :
    (setStock ps tgt v).map (fun p => p.id) = ps.map (fun p => p.id) := by
  induction ps with
  | nil => rfl
  | cons a t ih =>
    simp only [setStock, List.map_cons] at ih ⊢
    rw [setStock_id, ih]

theorem ledgerSum_append (es : List InventoryEntry) (e : InventoryEntry) (pid : Int) :
    ledgerSum (es ++ [e]) pid
      = ledgerSum es pid + (if e.product_id == pid then e.quantity else 0) := by
  induction es with
  | nil => simp [ledgerSum]
  | cons a t ih =>
    simp only [List.cons_append, ledgerSum, List.append_eq]
    rw [ih, Int.add_assoc]

theorem nodup_find_unique {ps : List Product}
    (hnd : (ps.map (fun p => p.id)).Nodup)
    {p y : Product} (hp : p ∈ ps) (hy : y ∈ ps) (hid : p.id = y.id) : p = y :=
  List.inj_on_of_nodup_map hnd hp hy hid

theorem okState_ext {a b : DBState} (hp : a.products = b.products)
    (he : a.entries = b.entries) (h : okState a) : okState b := by
  obtain ⟨h1, h2⟩ := h
  refine ⟨?_, ?_⟩
  · unfold wellFormed at h1 ⊢
    rw [← hp]
    exact h1
  · unfold reconciled at h2 ⊢
    simp only [← hp, ← he]
    exact h2

/-- Core preservation step: recording a ledger entry of delta `d` for an
existing product together with writing that product's stock to its old
value plus `d` keeps the state well formed and reconciled. -/
theorem reconciled_entry_step (st : DBState) (pid d w : Int) (s : String) (p : Product)
    (hwf : wellFormed st) (hrec : reconciled st)
    (hfind : findProduct st.products pid = some p) (hw : w = p.stock + d) :
    okState { st with
      entries := st.entries ++ [{ product_id := pid, quantity := d, notes := s }],
      products := setStock st.products pid w } := by
  have hmem : p ∈ st.products := List.mem_of_find?_eq_some hfind
  have hpid : p.id = pid := by
    have h := List.find?_some hfind
    simpa using h
  refine ⟨?_, ?_⟩
  · show ((setStock st.products pid w).map (fun q => q.id)).Nodup
    rw [setStock_map_ids]
    exact hwf
  · intro x hx
    have hx' : x ∈ setStock st.products pid w := hx
    obtain ⟨y, hy, rfl⟩ := List.mem_map.mp hx'
    show ledgerSum (st.entries ++ [{ product_id := pid, quantity := d, notes := s }]) _ = _
    rw [ledgerSum_append]
    by_cases hyid : y.id = pid
    · have hpy : p = y := nodup_find_unique hwf hmem hy (by rw [hpid, hyid])
      subst hpy
      have hfy : ledgerSum st.entries p.id = p.stock := hrec p hy
      rw [hpid] at hfy
      simp [hyid, hfy, hw]
    · have hne : (y.id == pid) = false := by simpa using hyid
      have hne' : (pid == y.id) = false := by
        simp only [beq_eq_false_iff_ne] at hne ⊢
        exact fun hcon => hne hcon.symm
      simp [hne, hne', hrec y hy]

/-- The `add_order` item loop preserves primary-key integrity and the
reconciliation invariant in every state it can expose — the running pending
state, the mid-loop committed snapshots, and the states carried out by the
abort constructors. -/
theorem processOrderItems_ok (oid threshold : Int)
    (items : List (Option Int × Option Int)) :
    ∀ (pending committed : DBState) (total : Int),
      okState pending → okState committed →
      resultStatesOk (processOrderItems oid threshold pending committed total items) := by
  induction items with
  | nil =>
    intro pending committed total hp hc
    exact ⟨hp, hc⟩
  | cons item rest ih =>
    intro pending committed total hp hc
    obtain ⟨pidOpt, qtyOpt⟩ := item
    cases pidOpt with
    | none =>
      simpa [processOrderItems] using ih pending committed total hp hc
    | some pid =>
      cases qtyOpt with
      | none =>
        simpa [processOrderItems] using ih pending committed total hp hc
      | some qty =>
        by_cases hq : qty ≤ 0
        · simpa [processOrderItems, hq] using ih pending committed total hp hc
        · cases hfp : findProduct pending.products pid with
          | none =>
            simpa [processOrderItems, hq, hfp, resultStatesOk] using hc
          | some product =>
            by_cases hs : product.stock < qty
            · simpa [processOrderItems, hq, hfp, hs, resultStatesOk] using hc
            · have hstep := reconciled_entry_step pending pid (-qty)
                (product.stock - qty) ("Order #" ++ toString oid) product
                hp.1 hp.2 hfp (by omega)
              have hpd : okState
                  { pending with
                    orderItems := pending.orderItems ++
                      [{ order_id := oid, product_id := pid, quantity := qty,
                         price := product.price }],
                    entries := pending.entries ++
                      [{ product_id := pid, quantity := -qty,
                         notes := "Order #" ++ toString oid }],
                    products := setStock pending.products pid (product.stock - qty) } :=
                okState_ext rfl rfl hstep
              simp only [processOrderItems, hfp, if_neg hq, if_neg hs]
              by_cases hcase : product.stock - qty < threshold
              · simp only [if_pos hcase]
                exact ih _ _ _ hpd hpd
              · simp only [if_neg hcase]
                exact ih _ _ _ hpd hc

/-- The restock loop of `delete_order` preserves integrity and
reconciliation. -/
theorem restockItems_ok (oid : Int) (items : List OrderItem) :
    ∀ st : DBState, okState st → okState (restockItems oid st items) := by
  induction items with
  | nil =>
    intro st h
    exact h
  | cons it rest ih =>
    intro st h
    cases hfp : findProduct st.products it.product_id with
    | none =>
      simpa [restockItems, hfp] using ih st h
    | some p =>
      have hstep := reconciled_entry_step st it.product_id it.quantity
        (p.stock + it.quantity) ("Order #" ++ toString oid ++ " deleted") p
        h.1 h.2 hfp rfl
      simpa [restockItems, hfp] using ih _ hstep

/-- Counterexample to C1 as stated: editing a product overwrites its stock
without recording any ledger entry — and creating a product gives it an
initial stock with no ledger entry either — so the reconciliation
invariant, true before the edit, is false afterwards. -/
theorem edit_product_breaks_reconciliation :
    reconciled reconciledStore ∧
    ¬ reconciled (edit_product reconciledStore 1 "Cola" "Original" 50 9) ∧
    ¬ reconciled (add_product reconciledStore "Fizz" "Grape" 40 6) := by
  decide

/-- Claim C1 amended: the order-lifecycle operations — order creation,
order deletion, and manual inventory addition — do pair every stock
mutation with a matching ledger entry: each preserves the reconciliation
invariant (given primary-key integrity).  Product creation and product
editing, by contrast, write stock directly without a ledger entry (see the
counterexample), so the reconciliation invariant does not extend to them. -/
theorem ledger_reconciliation_order_ops (st : DBState) (threshold : Int)
    (cid : Option Int) (items : List (Option Int × Option Int))
    (sync sync' : SyncBehavior) (oid pid q : Int) (remark : String)
    (hwf : wellFormed st) (hrec : reconciled st) :
    reconciled (add_order st threshold cid items sync).2.1 ∧
    reconciled (delete_order st oid sync').1 ∧
    reconciled (add_inventory st pid q remark) := by
  have h : okState st := ⟨hwf, hrec⟩
  refine ⟨?_, ?_, ?_⟩
  · -- add_order
    unfold add_order
    cases cid with
    | none => exact hrec
    | some c =>
      by_cases hemp : items.isEmpty
      · simp only [if_pos hemp]
        exact hrec
      · simp only [if_neg hemp]
        have h0 : okState
            { st with orders := st.orders ++
                [{ id := nextOrderId st, customer_id := c, total_amount := 0 }] } :=
          okState_ext rfl rfl h
        have hloop := processOrderItems_ok (nextOrderId st) threshold items
          _ st 0 h0 h
        cases hres : processOrderItems (nextOrderId st) threshold
            { st with orders := st.orders ++
                [{ id := nextOrderId st, customer_id := c, total_amount := 0 }] }
            st 0 items with
        | ok pf cf tf =>
          rw [hres] at hloop
          by_cases htot : (tf == 0) = true
          · simp only [htot, if_pos]
            exact hloop.2.2
          · simp only [htot]
            simp only [Bool.false_eq_true, if_false]
            exact (okState_ext rfl rfl hloop.1).2
        | productNotFound cf =>
          rw [hres] at hloop
          exact hloop.2
        | insufficientStock n f a cf =>
          rw [hres] at hloop
          exact hloop.2
  · -- delete_order
    unfold delete_order
    cases hfo : st.orders.find? (fun o => o.id == oid) with
    | none => exact hrec
    | some o =>
      cases sync' with
      | raises m => exact hrec
      | returns b =>
        have h1 := restockItems_ok oid
          (st.orderItems.filter (fun it => it.order_id == oid)) st h
        exact (okState_ext rfl rfl h1).2
  · -- add_inventory
    unfold add_inventory
    by_cases hq : q ≤ 0
    · simp only [if_pos hq]
      exact hrec
    · simp only [if_neg hq]
      cases hfp : findProduct st.products pid with
      | none => exact hrec
      | some p =>
        exact (reconciled_entry_step st pid q (p.stock + q) remark p hwf hrec hfp rfl).2

/-- Witness for C1 (amended): the three order-lifecycle operations applied
to a concrete reconciled store keep it reconciled. -/
theorem ledger_reconciliation_order_ops_witness :
    reconciled (add_order storeWithOrder 10 (some 1) [(some 1, some 2)] (.returns true)).2.1 ∧
    reconciled (delete_order storeWithOrder 1 (.returns true)).1 ∧
    reconciled (add_inventory storeWithOrder 1 4 "restock") :=
  ledger_reconciliation_order_ops storeWithOrder 10 (some 1) [(some 1, some 2)]
    (.returns true) (.returns true) 1 1 4 "restock" (by decide) (by decide)

/-- Claim C2, evaluated at the failing input: an order for 5 Cola (stock
12) and 5 Soda (stock 3) with the default low-stock threshold 10.  The
first item succeeds and drops Cola to 7 — below the threshold — so the
low-stock `create_notification` commits the session mid-loop.  The second
item then fails the stock check: the handler flashes the insufficient-stock
error naming Soda and its available 3 and rolls back, but the rollback only
reaches the mid-loop commit.  The database is left with Cola at stock 7, a
ledger entry of -5, and a dangling order row with its first item and
`total_amount` still 0 — NOT completely unchanged as the claim requires. -/
theorem add_order_mid_loop_commit_at_failing_input :
    (add_order twoProductStore 10 (some 1)
        [(some 1, some 5), (some 2, some 5)] (.returns true)).1
      = .insufficientStock "Soda" "Lemon" 3 ∧
    (add_order twoProductStore 10 (some 1)
        [(some 1, some 5), (some 2, some 5)] (.returns true)).2.1
      ≠ twoProductStore ∧
    stockOf (add_order twoProductStore 10 (some 1)
        [(some 1, some 5), (some 2, some 5)] (.returns true)).2.1 1 = some 7 ∧
    (add_order twoProductStore 10 (some 1)
        [(some 1, some 5), (some 2, some 5)] (.returns true)).2.1.orders
      = [{ id := 1, customer_id := 1, total_amount := 0 }] ∧
    (add_order twoProductStore 10 (some 1)
        [(some 1, some 5), (some 2, some 5)] (.returns true)).2.1.orderItems
      = [{ order_id := 1, product_id := 1, quantity := 5, price := 50 }] := by
  decide

/-- Counterexample to C7 as stated: a request whose first line item has
quantity 0 (not a positive integer) does not abort — the invalid item is
silently skipped and the order is created from the remaining item alone. -/
theorem add_order_silently_skips_invalid_quantity :
    (add_order ampleStore 0 (some 1)
        [(some 1, some 0), (some 2, some 3)] (.returns true)).1 = .created 1 ∧
    (add_order ampleStore 0 (some 1)
        [(some 1, some 0), (some 2, some 3)] (.returns true)).2.1.orderItems
      = [{ order_id := 1, product_id := 2, quantity := 3, price := 50 }] ∧
    stockOf (add_order ampleStore 0 (some 1)
        [(some 1, some 0), (some 2, some 3)] (.returns true)).2.1 1 = some 10 := by
  decide

/-- Claim C7 amended: a referenced product that does not exist aborts the
whole loop (returning the last committed state, i.e. rollback), but a line
item with a blank or unparseable field or a non-positive quantity is
silently skipped rather than aborting; the request only fails wholesale
when no line item survives (the handler's `total == 0` check). -/
theorem add_order_item_validation (oid threshold total pid q : Int)
    (pending committed : DBState) (rest : List (Option Int × Option Int))
    (qOpt : Option Int) :
    (q ≤ 0 → processOrderItems oid threshold pending committed total
        ((some pid, some q) :: rest)
      = processOrderItems oid threshold pending committed total rest) ∧
    (processOrderItems oid threshold pending committed total ((none, qOpt) :: rest)
      = processOrderItems oid threshold pending committed total rest) ∧
    (processOrderItems oid threshold pending committed total ((some pid, none) :: rest)
      = processOrderItems oid threshold pending committed total rest) ∧
    (0 < q → findProduct pending.products pid = none →
      processOrderItems oid threshold pending committed total
          ((some pid, some q) :: rest)
        = .productNotFound committed) := by
    refine ⟨fun hq => ?_, ?_, ?_, fun hq hnf => ?_⟩
    · simp [processOrderItems, hq]
    · cases qOpt <;> simp [processOrderItems]
    · simp [processOrderItems]
    · simp [processOrderItems, hnf, show ¬(q ≤ 0) from by omega]

/-- Witness for C7 (amended): a zero-quantity item is skipped and a
dangling product id aborts, on the concrete store. -/
theorem add_order_item_validation_witness :
    processOrderItems 1 10 ampleStore ampleStore 0 [(some 1, some 0)]
      = processOrderItems 1 10 ampleStore ampleStore 0 [] ∧
    processOrderItems 1 10 ampleStore ampleStore 0 [(some 99, some 2)]
      = .productNotFound ampleStore :=
  ⟨(add_order_item_validation 1 10 0 1 0 ampleStore ampleStore [] none).1 (by decide),
   (add_order_item_validation 1 10 0 99 2 ampleStore ampleStore [] none).2.2.2
     (by decide) (by decide)⟩

/-- Counterexample to C4 as stated: in `delete_order` the sheets/webhook
calls run BEFORE `db.session.commit()`, inside the handler's try block.  If
the sync raises, the `except` clause rolls the whole transaction back and
the deletion does not happen — so a sync exception does prevent the local
commit; the same deletion with a non-raising sync commits fine. -/
theorem delete_order_sync_exception_blocks_commit :
    delete_order storeWithOrder 1 (.raises "sheets client crashed")
      = (storeWithOrder, false) ∧
    (delete_order storeWithOrder 1 (.returns false)).2 = true := by
  decide

/-- Claim C4 amended: for `add_order` the local commit happens first and
the sync/webhook block — wrapped in try/except — can affect neither the
result nor the committed state, whatever it returns or raises.  For
`delete_order` the sync calls run before the commit: a sync failure
reported by return value still lets the deletion commit, but a raised sync
exception rolls the deletion back (see the counterexample). -/
theorem sync_failure_isolation (st : DBState) (threshold : Int)
    (cid : Option Int) (items : List (Option Int × Option Int))
    (s1 s2 : SyncBehavior) (oid : Int) (b : Bool)
    (hord : (st.orders.find? (fun o => o.id == oid)).isSome = true) :
    (add_order st threshold cid items s1).1 = (add_order st threshold cid items s2).1 ∧
    (add_order st threshold cid items s1).2.1
      = (add_order st threshold cid items s2).2.1 ∧
    (delete_order st oid (.returns b)).2 = true := by
  refine ⟨?_, ?_, ?_⟩
  · unfold add_order
    cases cid with
    | none => rfl
    | some c =>
      by_cases hemp : items.isEmpty
      · simp only [if_pos hemp]
      · simp only [if_neg hemp]
        cases hres : processOrderItems (nextOrderId st) threshold
            { st with orders := st.orders ++
                [{ id := nextOrderId st, customer_id := c, total_amount := 0 }] }
            st 0 items with
        | ok pf cf tf =>
          dsimp only
          by_cases htot : (tf == 0) = true
          · rw [if_pos htot, if_pos htot]
          · rw [if_neg htot, if_neg htot]
        | productNotFound cf => dsimp only
        | insufficientStock n f a cf => dsimp only
  · unfold add_order
    cases cid with
    | none => rfl
    | some c =>
      by_cases hemp : items.isEmpty
      · simp only [if_pos hemp]
      · simp only [if_neg hemp]
        cases hres : processOrderItems (nextOrderId st) threshold
            { st with orders := st.orders ++
                [{ id := nextOrderId st, customer_id := c, total_amount := 0 }] }
            st 0 items with
        | ok pf cf tf =>
          dsimp only
          by_cases htot : (tf == 0) = true
          · rw [if_pos htot, if_pos htot]
          · rw [if_neg htot, if_neg htot]
        | productNotFound cf => dsimp only
        | insufficientStock n f a cf => dsimp only
  · unfold delete_order
    cases hfo : st.orders.find? (fun o => o.id == oid) with
    | none =>
      rw [hfo] at hord
      simp at hord
    | some o => rfl

/-- Witness for C4 (amended): on the concrete store, the order result and
committed state are the same whether the sync raises or succeeds, and a
deletion whose sync merely reports failure still commits. -/
theorem sync_failure_isolation_witness :
    (add_order storeWithOrder 10 (some 1) [(some 1, some 2)] (.raises "down")).1
      = (add_order storeWithOrder 10 (some 1) [(some 1, some 2)] (.returns true)).1 ∧
    (add_order storeWithOrder 10 (some 1) [(some 1, some 2)] (.raises "down")).2.1
      = (add_order storeWithOrder 10 (some 1) [(some 1, some 2)] (.returns true)).2.1 ∧
    (delete_order storeWithOrder 1 (.returns false)).2 = true :=
  sync_failure_isolation storeWithOrder 10 (some 1) [(some 1, some 2)]
    (.raises "down") (.returns true) 1 false (by decide)

/-! ### Stock-delta lemmas for the round-trip claim -/

theorem findProduct_after_setStock (ps : List Product) (tgt v pid : Int) (p : Product)
    (hfind : findProduct ps tgt = some p) :
    (findProduct (setStock ps tgt v) pid).map (fun q => q.stock)
      = if (tgt == pid) = true then some v
        else (findProduct ps pid).map (fun q => q.stock) := by
  rw [findProduct_setStock]
  by_cases hcase : tgt = pid
  · subst hcase
    rw [hfind]
    have hpt := List.find?_some hfind
    simp only [beq_iff_eq] at hpt
    simp [hpt]
  · have hne : (tgt == pid) = false := by simpa using hcase
    simp only [hne, Bool.false_eq_true, if_false]
    cases hq : findProduct ps pid with
    | none => simp
    | some y =>
      have hyid := List.find?_some hq
      simp only [beq_iff_eq] at hyid
      have hneq : ¬ y.id = tgt := by
        rw [hyid]
        exact fun hcon => hcase hcon.symm
      simp [hneq]

theorem restockItems_stockOf (oid : Int) (items : List OrderItem) :
    ∀ (st : DBState) (pid : Int),
      (∀ it ∈ items, (findProduct st.products it.product_id).isSome = true) →
      stockOf (restockItems oid st items) pid
        = (stockOf st pid).map (fun v => v + itemsQty items pid) := by
  induction items with
  | nil =>
    intro st pid _
    show stockOf st pid = _
    cases stockOf st pid <;> simp [itemsQty]
  | cons it rest ih =>
    intro st pid h
    have hit := h it (List.mem_cons_self it rest)
    cases hfp : findProduct st.products it.product_id with
    | none =>
      rw [hfp] at hit
      simp at hit
    | some p =>
      have hnext : ∀ it2 ∈ rest,
          (findProduct (setStock st.products it.product_id (p.stock + it.quantity))
            it2.product_id).isSome = true := by
        intro it2 h2
        rw [findProduct_setStock]
        have h3 := h it2 (List.mem_cons_of_mem it h2)
        cases hq : findProduct st.products it2.product_id with
        | none =>
          rw [hq] at h3
          simp at h3
        | some y => simp
      simp only [restockItems, hfp]
      rw [ih _ pid hnext]
      have hset := findProduct_after_setStock st.products it.product_id
        (p.stock + it.quantity) pid p hfp
      simp only [stockOf] at hset ⊢
      rw [hset]
      simp only [itemsQty]
      by_cases hcase : (it.product_id == pid) = true
      · have hceq : it.product_id = pid := by simpa using hcase
        rw [if_pos hcase, if_pos hcase]
        subst hceq
        rw [hfp]
        simp [Int.add_assoc]
      · rw [if_neg hcase, if_neg hcase]
        simp

theorem restockItems_entries (oid : Int) (items : List OrderItem) :
    ∀ st : DBState,
      (∀ it ∈ items, (findProduct st.products it.product_id).isSome = true) →
      (restockItems oid st items).entries
        = st.entries ++ items.map (fun it =>
            { product_id := it.product_id, quantity := it.quantity,
              notes := "Order #" ++ toString oid ++ " deleted" }) := by
  induction items with
  | nil =>
    intro st _
    simp [restockItems]
  | cons it rest ih =>
    intro st h
    have hit := h it (List.mem_cons_self it rest)
    cases hfp : findProduct st.products it.product_id with
    | none =>
      rw [hfp] at hit
      simp at hit
    | some p =>
      have hnext : ∀ it2 ∈ rest,
          (findProduct (setStock st.products it.product_id (p.stock + it.quantity))
            it2.product_id).isSome = true := by
        intro it2 h2
        rw [findProduct_setStock]
        have h3 := h it2 (List.mem_cons_of_mem it h2)
        cases hq : findProduct st.products it2.product_id with
        | none =>
          rw [hq] at h3
          simp at h3
        | some y => simp
      simp only [restockItems, hfp]
      rw [ih _ hnext]
      simp

theorem processOrderItems_stockOf (oid threshold : Int)
    (items : List (Option Int × Option Int)) :
    ∀ (pending committed : DBState) (total : Int) (pf cf : DBState) (tf : Int),
      processOrderItems oid threshold pending committed total items
        = .ok pf cf tf →
      ∀ pid, stockOf pf pid = (stockOf pending pid).map (fun v => v - reqQty items pid) := by
  induction items with
  | nil =>
    intro pending committed total pf cf tf h pid
    cases h
    cases hs : stockOf pending pid <;> simp [reqQty, hs]
  | cons item rest ih =>
    intro pending committed total pf cf tf h pid
    obtain ⟨pidOpt, qtyOpt⟩ := item
    cases pidOpt with
    | none =>
      simp only [processOrderItems] at h
      simpa [reqQty] using ih pending committed total pf cf tf h pid
    | some pid0 =>
      cases qtyOpt with
      | none =>
        simp only [processOrderItems] at h
        simpa [reqQty] using ih pending committed total pf cf tf h pid
      | some qty =>
        by_cases hq : qty ≤ 0
        · simp only [processOrderItems, if_pos hq] at h
          have hrest := ih pending committed total pf cf tf h pid
          rw [hrest]
          simp only [reqQty, if_pos hq]
          cases stockOf pending pid <;> simp
        · simp only [processOrderItems, if_neg hq] at h
          cases hfp : findProduct pending.products pid0 with
          | none =>
            rw [hfp] at h
            cases h
          | some product =>
            rw [hfp] at h
            try dsimp only at h
            by_cases hs : product.stock < qty
            · rw [if_pos hs] at h
              cases h
            · rw [if_neg hs] at h
              have hrest := ih _ _ _ pf cf tf h pid
              rw [hrest]
              have hset := findProduct_after_setStock pending.products pid0
                (product.stock - qty) pid product hfp
              simp only [stockOf] at hset ⊢
              rw [hset]
              simp only [reqQty, if_neg hq]
              by_cases hcase : (pid0 == pid) = true
              · have hceq : pid0 = pid := by simpa using hcase
                rw [if_pos hcase, if_pos hcase]
                subst hceq
                rw [hfp]
                simp [Int.sub_sub]
              · rw [if_neg hcase, if_neg hcase]
                cases hsp : List.find? (fun p => p.id == pid) pending.products <;> simp

theorem reqQty_of_items (items : List OrderItem) (pid : Int)
    (hpos : ∀ it ∈ items, 0 < it.quantity) :
    reqQty (items.map (fun it => (some it.product_id, some it.quantity))) pid
      = itemsQty items pid := by
  induction items with
  | nil => rfl
  | cons it rest ih =>
    have h0 : ¬(it.quantity ≤ 0) := by
      have := hpos it (List.mem_cons_self it rest)
      omega
    simp only [List.map_cons, reqQty, itemsQty, if_neg h0]
    rw [ih (fun x hx => hpos x (List.mem_cons_of_mem it hx))]

theorem add_order_stockOf (st : DBState) (threshold cid : Int)
    (items : List (Option Int × Option Int)) (sync : SyncBehavior) (oid2 : Int)
    (h : (add_order st threshold (some cid) items sync).1 = .created oid2) :
    ∀ pid, stockOf (add_order st threshold (some cid) items sync).2.1 pid
      = (stockOf st pid).map (fun v => v - reqQty items pid) := by
  intro pid
  unfold add_order at h ⊢
  dsimp only at h ⊢
  by_cases hemp : items.isEmpty
  · rw [if_pos hemp] at h
    cases h
  · rw [if_neg hemp] at h ⊢
    cases hres : processOrderItems (nextOrderId st) threshold
        { st with orders := st.orders ++
            [{ id := nextOrderId st, customer_id := cid, total_amount := 0 }] }
        st 0 items with
    | productNotFound cf =>
      rw [hres] at h
      simp at h
    | insufficientStock n f a cf =>
      rw [hres] at h
      simp at h
    | ok pf cf tf =>
      rw [hres] at h
      dsimp only at h ⊢
      by_cases htot : (tf == 0) = true
      · rw [if_pos htot] at h
        cases h
      · rw [if_neg htot] at h ⊢
        have hdelta := processOrderItems_stockOf (nextOrderId st) threshold items
          _ st 0 pf cf tf hres pid
        exact hdelta

/-- Claim C9: reversing an order and then re-applying an order with
identical line items restores every product's stock to its pre-reversal
value.  The deletion appends one positive ledger entry of `+quantity` per
item (second conjunct) and increments the stocks; the re-created order
subtracts the same quantities (first conjunct), provided the order existed,
its items reference existing products with positive quantities, and the
re-creation succeeds. -/
theorem order_roundtrip_restores_stock (st : DBState)
    (oid oid2 threshold cid pid : Int) (b : Bool) (sync : SyncBehavior)
    (hdel : (delete_order st oid (.returns b)).2 = true)
    (hpos : ∀ it ∈ st.orderItems.filter (fun it => it.order_id == oid),
      0 < it.quantity)
    (hex : ∀ it ∈ st.orderItems.filter (fun it => it.order_id == oid),
      (findProduct st.products it.product_id).isSome = true)
    (hadd : (add_order (delete_order st oid (.returns b)).1 threshold (some cid)
        ((st.orderItems.filter (fun it => it.order_id == oid)).map
          (fun it => (some it.product_id, some it.quantity))) sync).1
      = .created oid2) :
    stockOf (add_order (delete_order st oid (.returns b)).1 threshold (some cid)
        ((st.orderItems.filter (fun it => it.order_id == oid)).map
          (fun it => (some it.product_id, some it.quantity))) sync).2.1 pid
      = stockOf st pid ∧
    (delete_order st oid (.returns b)).1.entries
      = st.entries ++ (st.orderItems.filter (fun it => it.order_id == oid)).map
          (fun it => { product_id := it.product_id, quantity := it.quantity,
                       notes := "Order #" ++ toString oid ++ " deleted" }) := by
  cases hfo : st.orders.find? (fun o => o.id == oid) with
  | none =>
    unfold delete_order at hdel
    rw [hfo] at hdel
    simp at hdel
  | some o =>
    have hprod : (delete_order st oid (.returns b)).1.products
        = (restockItems oid st
            (st.orderItems.filter (fun it => it.order_id == oid))).products := by
      unfold delete_order
      rw [hfo]
    have hent : (delete_order st oid (.returns b)).1.entries
        = (restockItems oid st
            (st.orderItems.filter (fun it => it.order_id == oid))).entries := by
      unfold delete_order
      rw [hfo]
    refine ⟨?_, ?_⟩
    · rw [add_order_stockOf (delete_order st oid (.returns b)).1 threshold cid
        ((st.orderItems.filter (fun it => it.order_id == oid)).map
          (fun it => (some it.product_id, some it.quantity))) sync oid2 hadd pid]
      have hs1 : stockOf (delete_order st oid (.returns b)).1 pid
          = (stockOf st pid).map (fun v => v +
              itemsQty (st.orderItems.filter (fun it => it.order_id == oid)) pid) := by
        rw [← restockItems_stockOf oid
          (st.orderItems.filter (fun it => it.order_id == oid)) st pid hex]
        unfold stockOf
        rw [hprod]
      rw [hs1]
      simp only [reqQty_of_items (st.orderItems.filter (fun it => it.order_id == oid))
        pid hpos]
      cases hsv : stockOf st pid with
      | none => simp
      | some v =>
        simp only [Option.map_some']
        congr 1
        omega
    · rw [hent, restockItems_entries oid
        (st.orderItems.filter (fun it => it.order_id == oid)) st hex]

/-- Witness for C9: deleting the committed 7-Cola order of the concrete
store and re-adding the identical line items brings Cola back to its
original stock of 3, and the deletion left the matching +7 ledger entry. -/
theorem order_roundtrip_restores_stock_witness :
    stockOf (add_order (delete_order storeWithOrder 1 (.returns true)).1 0 (some 1)
        ((storeWithOrder.orderItems.filter (fun it => it.order_id == 1)).map
          (fun it => (some it.product_id, some it.quantity))) (.returns true)).2.1 1
      = stockOf storeWithOrder 1 ∧
    (delete_order storeWithOrder 1 (.returns true)).1.entries
      = storeWithOrder.entries ++ (storeWithOrder.orderItems.filter
          (fun it => it.order_id == 1)).map
          (fun it => { product_id := it.product_id, quantity := it.quantity,
                       notes := "Order #" ++ toString (1 : Int) ++ " deleted" }) :=
  order_roundtrip_restores_stock storeWithOrder 1 1 0 1 1 true (.returns true)
    (by decide) (by decide) (by decide) (by decide)

end Marbo9k
